import Mathlib

/-!
Verification of the qualisentinel metrics-ingestion and diagnosis pipeline.

The Python sources (`src/modules/collector.py`, `src/modules/analyzer.py`) are
shallowly embedded below.  Machine floats are modelled as exact rationals (ℚ);
Python `int(x)` on a float is truncation toward zero; Python dicts are modelled
as insertion-ordered association lists.  An exposition line is modelled by the
result of Python's tokenisation of it: `line.split()` of a non-blank line always
yields a first token (the metric name) and a last token, whose `float(...)`
conversion either yields a rational or fails (`ExpoLine.sample name none`).
-/

namespace QS

/-- Python `int(x)` applied to a (rational-valued) float: truncation toward zero. -/
def pyInt (q : ℚ) : Int := Int.tdiv q.num q.den

/-- Python's `sub in hay` substring test at the character level:
`infixAt sub l` is true iff `sub` occurs contiguously in `l`. -/
def infixAt (sub : List Char) : List Char → Bool
  | [] => sub.isEmpty
  | x :: xs => sub.isPrefixOf (x :: xs) || infixAt sub xs

/-- Python's `sub in hay` on strings. -/
def containsSub (hay sub : String) : Bool := infixAt sub.toList hay.toList

/-- Python `s.split(c)` on a single separator character (keeps empty pieces). -/
def splitOnChar (c : Char) : List Char → List (List Char)
  | [] => [[]]
  | x :: xs =>
    let r := splitOnChar c xs
    if x = c then [] :: r
    else
      match r with
      | [] => [[x]]
      | h :: t => (x :: h) :: t

/-- Python `s.split(c, 1)`: split at the first occurrence of `c`, or `none`
when `c` does not occur (modelling the `'=' in pair` guard). -/
def splitFirst (c : Char) : List Char → Option (List Char × List Char)
  | [] => none
  | x :: xs =>
    if x = c then some ([], xs)
    else (splitFirst c xs).map (fun p => (x :: p.1, p.2))

/-- Strip characters satisfying `p` from both ends (Python `str.strip`). -/
def stripIf (p : Char → Bool) (l : List Char) : List Char :=
  ((l.dropWhile p).reverse.dropWhile p).reverse

/-- Python `s.strip()` (whitespace). -/
def pyStrip (l : List Char) : List Char := stripIf Char.isWhitespace l

/-- Python `s.strip('"')`. -/
def stripQuotes (l : List Char) : List Char := stripIf (fun c => c == '"') l

/-- Python dict assignment `d[k] = v` on an insertion-ordered association list:
overwrite in place when the key exists, else append at the end. -/
def dictUpsert (d : List (String × String)) (k v : String) : List (String × String) :=
  match d with
  | [] => [(k, v)]
  | (k', v') :: rest => if k' = k then (k, v) :: rest else (k', v') :: dictUpsert rest k v

/-- Python `d.get(k)` on an association list. -/
def lookupStr (d : List (String × String)) (k : String) : Option String :=
  match d with
  | [] => none
  | (k', v) :: rest => if k' = k then some v else lookupStr rest k

/-- collector.py lines 109-113: parse the label block of a repository-timing
metric as comma-separated `key="value"` pairs; pairs without `=` are skipped,
keys are stripped, values are stripped and unquoted. -/
def parseLabels (raw : String) : List (String × String) :=
  (splitOnChar ',' raw.toList).foldl
    (fun labels pair =>
      match splitFirst '=' pair with
      | none => labels
      | some kv => dictUpsert labels (String.mk (pyStrip kv.1)) (String.mk (stripQuotes (pyStrip kv.2))))
    []

/-- Python `a or b` for an optional string `a`: `None` and `""` are falsy. -/
def pyOrStr (a : Option String) (b : String) : String :=
  match a with
  | some s => if s = "" then b else s
  | none => b

/-- collector.py lines 114-115: `labels.get('repository') or labels.get('repo') or 'unknown'`
and `labels.get('method') or 'unknown'`. -/
def repoMethodOf (labelsRaw : String) : String × String :=
  let labels := parseLabels labelsRaw
  (pyOrStr (lookupStr labels "repository") (pyOrStr (lookupStr labels "repo") "unknown"),
   pyOrStr (lookupStr labels "method") "unknown")

/-- The character `}`. -/
def rightBrace : Char := Char.ofNat 125

/-- Take the characters before the first occurrence of `c`; `none` when `c`
is absent (modelling the regex piece matching up to a closing brace). -/
def takeUntilChar (c : Char) : List Char → Option (List Char)
  | [] => none
  | x :: xs => if x = c then some [] else (takeUntilChar c xs).map (fun t => x :: t)

/-- The fixed head of the repository-timing metric family name. -/
def repoFamilyChars : List Char := "spring_data_repository_invocations_seconds_".toList

/-- collector.py line 92, applied with `re.match` at line 105: the anchored
regex over the metric-name token, returning the kind (`sum`/`count`/`max`) and
the raw label block.  `re.match` only anchors at the start, so trailing
characters after the closing brace are allowed. -/
def repoMatch (name : String) : Option (String × String) :=
  let cs := name.toList
  if repoFamilyChars.isPrefixOf cs then
    let rest := cs.drop repoFamilyChars.length
    let kr : Option (String × List Char) :=
      if "sum\x7b".toList.isPrefixOf rest then some ("sum", rest.drop 4)
      else if "count\x7b".toList.isPrefixOf rest then some ("count", rest.drop 6)
      else if "max\x7b".toList.isPrefixOf rest then some ("max", rest.drop 4)
      else none
    match kr with
    | none => none
    | some kindRest =>
      match takeUntilChar rightBrace kindRest.2 with
      | none => none
      | some labelsRaw => some (kindRest.1, String.mk labelsRaw)
  else none

/-- One finalized repository-timing record (collector.py lines 168-175). -/
structure RepoTiming where
  repository : String
  method : String
  total_time_seconds : ℚ
  invocations : Int
  avg_time_seconds : ℚ
  max_time_seconds : ℚ
deriving DecidableEq, Repr

/-- The metrics snapshot (collector.py lines 75-89).  All Python-side numbers
are rationals here; the count-typed fields hold integral rationals because the
code only ever adds `int(value)` into them. -/
structure Metrics where
  jvm_memory_used_bytes : ℚ
  system_cpu_usage : ℚ
  http_server_requests_seconds_count : ℚ
  http_server_requests_seconds_max : ℚ
  jvm_gc_pause_seconds_count : ℚ
  jvm_gc_pause_seconds_sum : ℚ
  hikaricp_connections_active : ℚ
  hikaricp_connections_pending : ℚ
  hikaricp_connections_timeout_total : ℚ
  jvm_threads_states_blocked : ℚ
  logback_events_error_total : ℚ
  repository_timings : List RepoTiming
deriving DecidableEq, Repr

/-- The initial snapshot of collector.py lines 75-89 (all zeros, empty list). -/
def initMetrics : Metrics where
  jvm_memory_used_bytes := 0
  system_cpu_usage := 0
  http_server_requests_seconds_count := 0
  http_server_requests_seconds_max := 0
  jvm_gc_pause_seconds_count := 0
  jvm_gc_pause_seconds_sum := 0
  hikaricp_connections_active := 0
  hikaricp_connections_pending := 0
  hikaricp_connections_timeout_total := 0
  jvm_threads_states_blocked := 0
  logback_events_error_total := 0
  repository_timings := []

/-- One accumulator entry of `repo_acc` (collector.py lines 117-123). -/
structure RepoEntry where
  repository : String
  method : String
  sum : ℚ
  count : ℚ
  max : ℚ
deriving DecidableEq, Repr

/-- collector.py lines 124-129: route one sample value into an entry by kind. -/
def entryApply (e : RepoEntry) (kind : String) (v : ℚ) : RepoEntry :=
  if kind = "sum" then { e with sum := e.sum + v }
  else if kind = "count" then { e with count := e.count + v }
  else if kind = "max" ∧ e.max < v then { e with max := v }
  else e

/-- `repo_acc.setdefault(key, {...})` followed by the kind update: find the
entry with this key (keeping the first-seen `repository`/`method`), or append
a fresh zero entry at the end, then apply the sample. -/
def accApply (key repo method kind : String) (v : ℚ) :
    List (String × RepoEntry) → List (String × RepoEntry)
  | [] => [(key, entryApply { repository := repo, method := method, sum := 0, count := 0, max := 0 } kind v)]
  | (k, e) :: rest =>
    if k = key then (k, entryApply e kind v) :: rest
    else (k, e) :: accApply key repo method kind v rest

/-- collector.py lines 104-131: the repository-timing branch for one line,
with `key = f"{repo}:{method}"`. -/
def repoUpdate (acc : List (String × RepoEntry)) (kind labelsRaw : String) (v : ℚ) :
    List (String × RepoEntry) :=
  let rm := repoMethodOf labelsRaw
  accApply (rm.1 ++ ":" ++ rm.2) rm.1 rm.2 kind v acc

/-- The metric families matched by substring containment in the if/elif chain
of collector.py lines 134-157 (in chain order). -/
inductive Fam where
  | mem | cpu | httpCount | httpMax | gcCount | gcSum
  | hikActive | hikPending | hikTimeout | blocked | logback
deriving DecidableEq, Repr

instance : Fintype Fam :=
  ⟨⟨{.mem, .cpu, .httpCount, .httpMax, .gcCount, .gcSum,
     .hikActive, .hikPending, .hikTimeout, .blocked, .logback}, by decide⟩,
   by intro x; cases x <;> decide⟩

/-- The per-family match predicate, verbatim from the source's conditions
(substring containment on the metric-name token; the blocked-thread and
error-log families each also check a label substring). -/
def famMatch : Fam → String → Bool
  | .mem, n => containsSub n "jvm_memory_used_bytes"
  | .cpu, n => containsSub n "system_cpu_usage"
  | .httpCount, n => containsSub n "http_server_requests_seconds_count"
  | .httpMax, n => containsSub n "http_server_requests_seconds_max"
  | .gcCount, n => containsSub n "jvm_gc_pause_seconds_count"
  | .gcSum, n => containsSub n "jvm_gc_pause_seconds_sum"
  | .hikActive, n => containsSub n "hikaricp_connections_active"
  | .hikPending, n => containsSub n "hikaricp_connections_pending"
  | .hikTimeout, n => containsSub n "hikaricp_connections_timeout_total"
  | .blocked, n => containsSub n "jvm_threads_states_threads" && containsSub n "state=\"blocked\""
  | .logback, n => containsSub n "logback_events_total" && containsSub n "level=\"error\""

/-- collector.py lines 134-157: the if/elif chain over a non-repository line.
Additive fields accumulate (`+= value` or `+= int(value)`), gauges assign
(`= value`), and the HTTP-max branch only fires when the value exceeds the
running maximum. -/
def updateMetrics (m : Metrics) (name : String) (v : ℚ) : Metrics :=
  if famMatch .mem name then
    { m with jvm_memory_used_bytes := m.jvm_memory_used_bytes + v }
  else if famMatch .cpu name then
    { m with system_cpu_usage := v }
  else if famMatch .httpCount name then
    { m with http_server_requests_seconds_count := m.http_server_requests_seconds_count + (pyInt v : ℚ) }
  else if famMatch .httpMax name ∧ m.http_server_requests_seconds_max < v then
    { m with http_server_requests_seconds_max := v }
  else if famMatch .gcCount name then
    { m with jvm_gc_pause_seconds_count := m.jvm_gc_pause_seconds_count + (pyInt v : ℚ) }
  else if famMatch .gcSum name then
    { m with jvm_gc_pause_seconds_sum := m.jvm_gc_pause_seconds_sum + v }
  else if famMatch .hikActive name then
    { m with hikaricp_connections_active := v }
  else if famMatch .hikPending name then
    { m with hikaricp_connections_pending := v }
  else if famMatch .hikTimeout name then
    { m with hikaricp_connections_timeout_total := m.hikaricp_connections_timeout_total + (pyInt v : ℚ) }
  else if famMatch .blocked name then
    { m with jvm_threads_states_blocked := v }
  else if famMatch .logback name then
    { m with logback_events_error_total := m.logback_events_error_total + (pyInt v : ℚ) }
  else m

/-- One physical exposition line, as Python's tokenisation sees it:
a comment line (leading `#`), a blank line, or a sample line carrying the
first whitespace token (the metric name) and the `float(...)` conversion of
the last token (`none` when the conversion fails). -/
inductive ExpoLine where
  | comment (text : String)
  | blank
  | sample (name : String) (value : Option ℚ)
deriving DecidableEq, Repr

/-- collector.py lines 95-160: processing of one line.  Comment lines, blank
lines and lines whose value fails numeric conversion leave the state unchanged
(`continue`); repository-timing lines go to the accumulator; all other lines
go through the if/elif chain. -/
def procLine (st : Metrics × List (String × RepoEntry)) (l : ExpoLine) :
    Metrics × List (String × RepoEntry) :=
  match l with
  | .comment _ => st
  | .blank => st
  | .sample name value =>
    match value with
    | none => st
    | some v =>
      match repoMatch name with
      | some kl => (st.1, repoUpdate st.2 kl.1 kl.2 v)
      | none => (updateMetrics st.1 name v, st.2)

/-- collector.py lines 165-175: finalize one accumulator entry.
`count = entry['count'] or 0.0` is the identity on a rational;
`avg = sum / count if count > 0 else 0.0`; `invocations = int(count)`. -/
def mkTiming (e : RepoEntry) : RepoTiming where
  repository := e.repository
  method := e.method
  total_time_seconds := e.sum
  invocations := pyInt e.count
  avg_time_seconds := if 0 < e.count then e.sum / e.count else 0
  max_time_seconds := e.max

/-- The comparison of `repo_list.sort(key=..., reverse=True)`: a stable sort
descending by total time (Python's sort keeps ties in original order). -/
def byTotalDesc (a b : RepoTiming) : Bool :=
  decide (b.total_time_seconds ≤ a.total_time_seconds)

/-- collector.py lines 74-180: the full parse of an exposition text (given as
its tokenised lines) into a snapshot. -/
def parseMetrics (lines : List ExpoLine) : Metrics :=
  let st := lines.foldl procLine (initMetrics, [])
  if st.2.isEmpty then st.1
  else
    { st.1 with
      repository_timings := (st.2.map (fun p => mkTiming p.2)).mergeSort byTotalDesc }

/-- The first-seen-order finalized repository list, before the sort
(the iteration order of `repo_acc.values()` at collector.py line 165). -/
def firstSeenTimings (lines : List ExpoLine) : List RepoTiming :=
  ((lines.foldl procLine (initMetrics, [])).2).map (fun p => mkTiming p.2)

/-- A JSON value (the payload of the HTTP-trace endpoint). -/
inductive Json where
  | null
  | bool (b : Bool)
  | num (q : ℚ)
  | str (s : String)
  | arr (items : List Json)
  | obj (fields : List (String × Json))

/-- Python `k in d` / `d[k]` on a JSON object. -/
def jlookup (fields : List (String × Json)) (k : String) : Option Json :=
  match fields with
  | [] => none
  | (k', v) :: rest => if k' = k then some v else jlookup rest k

/-- Python `isinstance(x, list)`. -/
def Json.isList : Json → Bool
  | .arr _ => true
  | _ => false

/-- collector.py lines 56-59: the fallback key probe, in order. -/
def firstListVal (fields : List (String × Json)) : List String → Option Json
  | [] => none
  | k :: ks =>
    match jlookup fields k with
    | some v => if v.isList then some v else firstListVal fields ks
    | none => firstListVal fields ks

/-- collector.py lines 48-62: normalisation of a parsed HTTP-trace payload.
A dict with key `traces` returns `data.get('traces', [])` — the stored value,
whatever its shape; a bare list returns itself; a dict without `traces`
returns the first of `content`/`items`/`values` holding a list; anything else
returns the empty list. -/
def normalize_payload (data : Json) : Json :=
  match data with
  | .obj fields =>
    match jlookup fields "traces" with
    | some t => t
    | none =>
      match firstListVal fields ["content", "items", "values"] with
      | some v => v
      | none => .arr []
  | .arr items => .arr items
  | _ => .arr []

/-- The outcome of one `requests.get` call: a raised `RequestException`, or a
response with a status code and a body (`none` when `resp.json()` raises
`ValueError`). -/
inductive Fetched where
  | exc
  | resp (status : Nat) (body : Option Json)

/-- collector.py lines 19-62: the endpoint loop of `get_httptrace_data`.
A connection error returns `None`; 404 tries the next endpoint; any other
4xx/5xx (`raise_for_status`) returns `None`; a non-JSON body returns `None`;
otherwise the normalised payload is returned.  When the loop exhausts the
endpoint list, the Python function falls off its end and so returns `None`. -/
def tryEndpoints (fetch : String → Fetched) : List String → Option Json
  | [] => none
  | ep :: rest =>
    match fetch ep with
    | .exc => none
    | .resp status body =>
      if status = 404 then tryEndpoints fetch rest
      else if 400 ≤ status then none
      else
        match body with
        | none => none
        | some data => some (normalize_payload data)

/-- collector.py line 17. -/
def httptrace_endpoints : List String := ["/actuator/httptrace", "/actuator/http-trace"]

/-- collector.py lines 5-62: `get_httptrace_data`, as a function of the
response each candidate endpoint URL would give. -/
def get_httptrace_data (fetch : String → Fetched) : Option Json :=
  tryEndpoints fetch httptrace_endpoints

/-- The process environment (analyzer.py reads it via `os.getenv`). -/
abbrev Env := List (String × String)

/-- Python `os.getenv(k)`: `None` when unset. -/
def getenv (env : Env) (k : String) : Option String := lookupStr env k

/-- Python truthiness of `os.getenv(k)`: `None` and `""` are falsy. -/
def pyTruthy (s : Option String) : Bool :=
  match s with
  | some v => !(v == "")
  | none => false

/-- ASCII lower-casing of one character (Python `str.lower` restricted to the
ASCII provider names this code compares against). -/
def lowerChar (c : Char) : Char :=
  if 'A' ≤ c ∧ c ≤ 'Z' then Char.ofNat (c.toNat + 32) else c

/-- Python `s.lower()`. -/
def pyLower (s : String) : String := String.mk (s.toList.map lowerChar)

/-- Python `s.strip()`. -/
def pyStripStr (s : String) : String := String.mk (pyStrip s.toList)

/-- analyzer.py lines 139-150: `_select_provider`.  Note that the explicit
branch can return the empty string (e.g. `AI_PROVIDER=" "`), which is then
falsy at the call sites. -/
def select_provider (env : Env) : Option String :=
  let explicit := pyLower (pyStripStr (pyOrStr (getenv env "AI_PROVIDER") "auto"))
  if explicit ≠ "auto" then some explicit
  else if pyTruthy (getenv env "GEMINI_API_KEY") then some "gemini"
  else if pyTruthy (getenv env "OPENAI_API_KEY") then some "openai"
  else none

/-- analyzer.py lines 153-160: `_has_key_for`. -/
def has_key_for (env : Env) (provider : String) : Bool :=
  if provider = "gemini" then pyTruthy (getenv env "GEMINI_API_KEY")
  else if provider = "openai" then pyTruthy (getenv env "OPENAI_API_KEY")
  else if provider = "mock" then true
  else false

/-- Left-pad a digit string with zeros to the given width. -/
def padZeros (s : String) (n : Nat) : String :=
  String.mk (List.replicate (n - s.length) '0') ++ s

/-- Round a rational to the nearest integer, ties to even (the rounding of
Python's fixed-point string formatting, on the exact-rational model). -/
def roundHalfEven (q : ℚ) : Int :=
  let f : Int := ⌊q⌋
  let r := q - (f : ℚ)
  if r < 1/2 then f
  else if (1 : ℚ)/2 < r then f + 1
  else if f % 2 = 0 then f else f + 1

/-- Python `f"{q:.{prec}f}"` on the exact-rational model. -/
def fmtFixed (q : ℚ) (prec : Nat) : String :=
  let n := roundHalfEven (q * ((10 ^ prec : Nat) : ℚ))
  let sign := if n < 0 then "-" else ""
  let a := n.natAbs
  sign ++ toString (a / 10 ^ prec) ++ "." ++ padZeros (toString (a % 10 ^ prec)) prec

/-- Python `f"{q:.2%}"` on the exact-rational model. -/
def fmtPercent2 (q : ℚ) : String := fmtFixed (q * 100) 2 ++ "%"

/-- Python `f"{q}"` for the (integral) request-count field. -/
def ratToStr (q : ℚ) : String :=
  if q.den = 1 then toString q.num else toString q.num ++ "/" ++ toString q.den

/-- analyzer.py lines 27-67: `_build_base_prompt`.  Every field is present and
numeric in the snapshot model, so the `isinstance`/`except` fallbacks to
`"N/A"` never trigger; numeric rendering uses the exact-rational formatters. -/
def build_base_prompt (m : Metrics) : String :=
  let prompt_header := "### Análise de Performance de Aplicação Spring Boot\n\n"
  let prompt_context := "Analise as seguintes métricas de uma aplicação Java/Spring e forneça: \n1. Possíveis gargalos de performance (CPU, memória, IO, concorrência).\n2. Hipóteses de causa raiz.\n3. Sugestões de otimização específicas (métodos, padrões, configurações).\n4. Caso aplicável, refatorações de código ou ajustes de configuração JVM.\n\n"
  let system_cpu_fmt := fmtPercent2 m.system_cpu_usage
  let jvm_mem_fmt := fmtFixed (m.jvm_memory_used_bytes / 1024 / 1024) 2 ++ " MB"
  let total_http := ratToStr m.http_server_requests_seconds_count
  let http_max_fmt := fmtFixed m.http_server_requests_seconds_max 4 ++ " s"
  let prompt_metrics := "**Métricas Coletadas:**\n- Uso de CPU do Sistema: " ++ system_cpu_fmt ++ "\n- Total de Memória JVM Utilizada: " ++ jvm_mem_fmt ++ "\n- Total de Requisições HTTP: " ++ total_http ++ "\n- Tempo Máximo de Resposta HTTP: " ++ http_max_fmt ++ "\n\n"
  let prompt_footer := "Com base nesses dados, qual a causa raiz mais provável para a lentidão? Liste pontos do código e configurações que deveriam ser investigados primeiro."
  prompt_header ++ prompt_context ++ prompt_metrics ++ prompt_footer

/-- analyzer.py lines 70-73: `_generate_prompt_for_manual_analysis` (Plan B). -/
def generate_prompt_for_manual_analysis (m : Metrics) : String := build_base_prompt m

/-- A provider function returns `(text, provider_name)` or raises
(modelled as `Except.error` with the exception text). -/
abbrev ProviderFn := Metrics → Except String (String × String)

/-- analyzer.py lines 80-95: `_run_with_gemini` (stub; never raises). -/
def run_with_gemini (m : Metrics) : Except String (String × String) :=
  .ok ("[Gemini Stub] Diagnóstico: Alto consumo de CPU sustentado. Verificar índice de coleções, uso de paralelismo em `processOrder` e possíveis loops não otimizados." ++ "\n\nPrompt Base Utilizado:\n" ++ build_base_prompt m, "gemini")

/-- analyzer.py lines 98-117: `_run_with_openai` (stub; never raises). -/
def run_with_openai (m : Metrics) : Except String (String × String) :=
  .ok ("[OpenAI Stub] Diagnóstico: Picos de latência correlacionados a GC longo. Considerar ajustar -Xms/-Xmx e habilitar G1GC se não estiver ativo. Revisar pool de threads do servlet." ++ "\n\nPrompt Base Utilizado:\n" ++ build_base_prompt m, "openai")

/-- analyzer.py lines 120-127: `_run_with_mock` (stub; never raises). -/
def run_with_mock (m : Metrics) : Except String (String × String) :=
  .ok ("[Mock] Diagnóstico heurístico: CPU elevada possivelmente devido a agregações em memória e ausência de caching de resultados. Sugerir instrumentar métodos críticos com métricas adicionais." ++ "\n\nPrompt Base Utilizado:\n" ++ build_base_prompt m, "mock")

/-- analyzer.py lines 132-136: the `_PROVIDERS` table. -/
def PROVIDERS (p : String) : Option ProviderFn :=
  if p = "gemini" then some run_with_gemini
  else if p = "openai" then some run_with_openai
  else if p = "mock" then some run_with_mock
  else none

/-- analyzer.py lines 163-188: `analyze_metrics`, parameterised by the
provider table so that a provider call that raises (an `Except.error`) can be
quantified over; the repository's own table is `PROVIDERS`. -/
def analyze_metrics_with (providers : String → Option ProviderFn) (env : Env) (m : Metrics) : String :=
  match select_provider env with
  | none => generate_prompt_for_manual_analysis m
  | some provider =>
    if provider = "" ∨ has_key_for env provider = false then
      generate_prompt_for_manual_analysis m
    else
      match providers provider with
      | none => generate_prompt_for_manual_analysis m
      | some fn =>
        match fn m with
        | .ok res => "[provider=" ++ res.2 ++ "]\n" ++ res.1
        | .error _ => generate_prompt_for_manual_analysis m

/-- analyzer.py `analyze_metrics` with the source's own provider table. -/
def analyze_metrics (env : Env) (m : Metrics) : String :=
  analyze_metrics_with PROVIDERS env m

/-- The structured result of analyzer.py lines 194-219; the Python dict's
optional `error` key is the `error` field (`none` when the key is absent). -/
structure AnalysisResult where
  mode : String
  provider : Option String
  content : String
  error : Option String
deriving DecidableEq, Repr

/-- analyzer.py lines 194-219: `analyze_metrics_structured`, parameterised by
the provider table like `analyze_metrics_with`. -/
def analyze_metrics_structured_with (providers : String → Option ProviderFn) (env : Env) (m : Metrics) :
    AnalysisResult :=
  match select_provider env with
  | none =>
    { mode := "manual_prompt", provider := none
      content := generate_prompt_for_manual_analysis m, error := none }
  | some provider =>
    if provider = "" ∨ has_key_for env provider = false then
      { mode := "manual_prompt", provider := none
        content := generate_prompt_for_manual_analysis m, error := none }
    else
      match providers provider with
      | none =>
        { mode := "manual_prompt", provider := none
          content := generate_prompt_for_manual_analysis m, error := none }
      | some fn =>
        match fn m with
        | .ok res => { mode := "ai", provider := some res.2, content := res.1, error := none }
        | .error ex =>
          { mode := "manual_prompt", provider := none
            content := generate_prompt_for_manual_analysis m, error := some ex }

/-- analyzer.py `analyze_metrics_structured` with the source's table. -/
def analyze_metrics_structured (env : Env) (m : Metrics) : AnalysisResult :=
  analyze_metrics_structured_with PROVIDERS env m

/-- One diagnostic finding: a stable rule identity and its rendered text. -/
structure Finding where
  rule : String
  text : String
deriving DecidableEq, Repr

/-- The memory-pressure finding text (spec §4.4 rule 1). -/
def memoryPressureText : String :=
  "Tempo total de pausas de GC acima de 1s: provável ineficiência de memória; auditar alocações pesadas por chamada e coleções estáticas sem limite."

/-- The data-access finding text (spec §4.4 rule 2). -/
def dataAccessText : String :=
  "Gargalo de acesso a dados: reduzir escopo de transações, conferir índices e observar padrões N+1."

/-- The thread-contention finding text (spec §4.4 rule 3). -/
def threadContentionText : String :=
  "Contenção de threads: mais de 5 threads bloqueadas aguardando locks."

/-- The no-findings fallback text (spec §4.4 rule 4). -/
def noFindingsText : String :=
  "Nenhum padrão crítico detectado nas métricas coletadas."

/-- Modelled from the spec: the Diagnostic Rule Engine of §4.4 is not present
under `src/` (the analyzer module only contains the provider plumbing), so its
`evaluate` is modelled from the spec's words.  Rules fire independently in a
fixed order: (1) memory pressure when cumulative GC pause time exceeds 1.0 s;
(2) data-access bottleneck when pending DB-pool connections > 0 or the
repository-timing table is non-empty; (3) thread contention when the
blocked-thread gauge exceeds 5; (4) a single informational fallback when no
rule fired. -/
def evaluate (s : Metrics) : List Finding :=
  let fired :=
    (if 1 < s.jvm_gc_pause_seconds_sum then [{ rule := "memory_pressure", text := memoryPressureText : Finding }] else []) ++
    (if 0 < s.hikaricp_connections_pending ∨ s.repository_timings ≠ [] then [{ rule := "data_access", text := dataAccessText : Finding }] else []) ++
    (if 5 < s.jvm_threads_states_blocked then [{ rule := "thread_contention", text := threadContentionText : Finding }] else [])
  if fired.isEmpty then [{ rule := "no_findings", text := noFindingsText : Finding }] else fired

/-- The truncation applied by the chain to the value it folds into family `f`:
the count-typed fields accumulate `int(value)`, all others take the value
itself. -/
def famCast : Fam → ℚ → ℚ
  | .httpCount, v => (pyInt v : ℚ)
  | .gcCount, v => (pyInt v : ℚ)
  | .hikTimeout, v => (pyInt v : ℚ)
  | .logback, v => (pyInt v : ℚ)
  | _, v => v

/-- The value a line contributes to family `f` when it is a non-repository
sample line matching `f`'s pattern (with the chain's truncation applied), and
`none` otherwise. -/
def lineVal (f : Fam) (l : ExpoLine) : Option ℚ :=
  match l with
  | .sample name (some v) =>
    if (repoMatch name).isNone && famMatch f name then some (famCast f v) else none
  | _ => none

/-- The untruncated sample value of a line matching family `f` (the "sample
value" the spec's additive-sum sentence speaks about), `none` otherwise. -/
def rawVal (f : Fam) (l : ExpoLine) : Option ℚ :=
  match l with
  | .sample name (some v) =>
    if (repoMatch name).isNone && famMatch f name then some v else none
  | _ => none

/-- The additive contribution of one line to family `f`. -/
def addContrib (f : Fam) (l : ExpoLine) : ℚ := (lineVal f l).getD 0

/-- A metric-name token matching at most one family pattern.  Lines violating
this (a name containing two different family substrings) are routed by the
chain's priority order, not by their own family. -/
abbrev CleanName (name : String) : Prop :=
  ∀ f g : Fam, famMatch f name = true → famMatch g name = true → f = g

/-- A line whose metric name (if any) matches at most one family pattern. -/
def CleanLine : ExpoLine → Prop
  | .sample name _ => CleanName name
  | _ => True

instance : DecidablePred CleanLine
  | .comment _ => .isTrue trivial
  | .blank => .isTrue trivial
  | .sample name _ => inferInstanceAs (Decidable (CleanName name))

/-- A line that the parser silently skips as malformed: a non-comment,
non-blank line whose last token fails `float(...)` conversion (tokenisation
itself cannot fail: a non-blank line always has a first and a last token). -/
def isMalformed : ExpoLine → Bool
  | .sample _ none => true
  | _ => false

/-- The twelve keys of the snapshot dict literal (collector.py lines 75-89). -/
def snapshot_keys : List String :=
  ["jvm_memory_used_bytes", "system_cpu_usage", "http_server_requests_seconds_count",
   "http_server_requests_seconds_max", "jvm_gc_pause_seconds_count", "jvm_gc_pause_seconds_sum",
   "hikaricp_connections_active", "hikaricp_connections_pending",
   "hikaricp_connections_timeout_total", "jvm_threads_states_blocked",
   "logback_events_error_total", "repository_timings"]

/-- A value stored in the snapshot dict: a number or the timing list. -/
inductive MVal where
  | num (q : ℚ)
  | timings (l : List RepoTiming)
deriving DecidableEq, Repr

/-- The snapshot dict's lookup, key by key (collector.py lines 75-89): the
field stored under each of the twelve keys, and nothing under any other key. -/
def snapshotLookup (m : Metrics) (k : String) : Option MVal :=
  if k = "jvm_memory_used_bytes" then some (.num m.jvm_memory_used_bytes)
  else if k = "system_cpu_usage" then some (.num m.system_cpu_usage)
  else if k = "http_server_requests_seconds_count" then some (.num m.http_server_requests_seconds_count)
  else if k = "http_server_requests_seconds_max" then some (.num m.http_server_requests_seconds_max)
  else if k = "jvm_gc_pause_seconds_count" then some (.num m.jvm_gc_pause_seconds_count)
  else if k = "jvm_gc_pause_seconds_sum" then some (.num m.jvm_gc_pause_seconds_sum)
  else if k = "hikaricp_connections_active" then some (.num m.hikaricp_connections_active)
  else if k = "hikaricp_connections_pending" then some (.num m.hikaricp_connections_pending)
  else if k = "hikaricp_connections_timeout_total" then some (.num m.hikaricp_connections_timeout_total)
  else if k = "jvm_threads_states_blocked" then some (.num m.jvm_threads_states_blocked)
  else if k = "logback_events_error_total" then some (.num m.logback_events_error_total)
  else if k = "repository_timings" then some (.timings m.repository_timings)
  else none

/-- A concrete finalized repository-timing record used to exercise the
average/sort characterisation on a concrete parse. -/
def c3rec : RepoTiming :=
  { repository := "R", method := "m", total_time_seconds := 4, invocations := 2,
    avg_time_seconds := 2, max_time_seconds := 0 }


theorem clean_unique {name : String} (h : CleanName name) {f : Fam}
    (hf : famMatch f name = true) : ∀ g : Fam, g ≠ f → famMatch g name = false := by
  intro g hg
  cases hgm : famMatch g name
  · rfl
  · exact absurd (h g f hgm hf) hg

theorem procLine_step (st : Metrics × List (String × RepoEntry)) (l : ExpoLine)
    (h : CleanLine l) :
    (procLine st l).1.jvm_memory_used_bytes = st.1.jvm_memory_used_bytes + addContrib .mem l ∧
    (procLine st l).1.http_server_requests_seconds_count = st.1.http_server_requests_seconds_count + addContrib .httpCount l ∧
    (procLine st l).1.jvm_gc_pause_seconds_count = st.1.jvm_gc_pause_seconds_count + addContrib .gcCount l ∧
    (procLine st l).1.jvm_gc_pause_seconds_sum = st.1.jvm_gc_pause_seconds_sum + addContrib .gcSum l ∧
    (procLine st l).1.hikaricp_connections_timeout_total = st.1.hikaricp_connections_timeout_total + addContrib .hikTimeout l ∧
    (procLine st l).1.logback_events_error_total = st.1.logback_events_error_total + addContrib .logback l ∧
    (procLine st l).1.system_cpu_usage = (lineVal .cpu l).getD st.1.system_cpu_usage ∧
    (procLine st l).1.hikaricp_connections_active = (lineVal .hikActive l).getD st.1.hikaricp_connections_active ∧
    (procLine st l).1.hikaricp_connections_pending = (lineVal .hikPending l).getD st.1.hikaricp_connections_pending ∧
    (procLine st l).1.jvm_threads_states_blocked = (lineVal .blocked l).getD st.1.jvm_threads_states_blocked := by
  cases l with
  | comment t => simp [procLine, addContrib, lineVal]
  | blank => simp [procLine, addContrib, lineVal]
  | sample name value =>
    cases value with
    | none => simp [procLine, addContrib, lineVal]
    | some v =>
      rcases hr : repoMatch name with _ | kl
      case some =>
        simp [procLine, hr, addContrib, lineVal]
      case none =>
      have hclean : CleanName name := h
      by_cases h1 : famMatch .mem name
      · have k := clean_unique hclean h1
        simp [procLine, hr, updateMetrics, h1, addContrib, lineVal, famCast,
              k .cpu (by decide), k .httpCount (by decide), k .httpMax (by decide),
              k .gcCount (by decide), k .gcSum (by decide), k .hikActive (by decide),
              k .hikPending (by decide), k .hikTimeout (by decide), k .blocked (by decide),
              k .logback (by decide)]
      by_cases h2 : famMatch .cpu name
      · have k := clean_unique hclean h2
        simp [procLine, hr, updateMetrics, h1, h2, addContrib, lineVal, famCast,
              k .mem (by decide), k .httpCount (by decide), k .httpMax (by decide),
              k .gcCount (by decide), k .gcSum (by decide), k .hikActive (by decide),
              k .hikPending (by decide), k .hikTimeout (by decide), k .blocked (by decide),
              k .logback (by decide)]
      by_cases h3 : famMatch .httpCount name
      · have k := clean_unique hclean h3
        simp [procLine, hr, updateMetrics, h1, h2, h3, addContrib, lineVal, famCast,
              k .mem (by decide), k .cpu (by decide), k .httpMax (by decide),
              k .gcCount (by decide), k .gcSum (by decide), k .hikActive (by decide),
              k .hikPending (by decide), k .hikTimeout (by decide), k .blocked (by decide),
              k .logback (by decide)]
      by_cases h4 : famMatch .httpMax name
      · have k := clean_unique hclean h4
        by_cases hlt : st.1.http_server_requests_seconds_max < v <;>
          simp [procLine, hr, updateMetrics, h1, h2, h3, h4, hlt, addContrib, lineVal, famCast,
                k .mem (by decide), k .cpu (by decide), k .httpCount (by decide),
                k .gcCount (by decide), k .gcSum (by decide), k .hikActive (by decide),
                k .hikPending (by decide), k .hikTimeout (by decide), k .blocked (by decide),
                k .logback (by decide)]
      by_cases h5 : famMatch .gcCount name
      · have k := clean_unique hclean h5
        simp [procLine, hr, updateMetrics, h1, h2, h3, h4, h5, addContrib, lineVal, famCast,
              k .mem (by decide), k .cpu (by decide), k .httpCount (by decide),
              k .httpMax (by decide), k .gcSum (by decide), k .hikActive (by decide),
              k .hikPending (by decide), k .hikTimeout (by decide), k .blocked (by decide),
              k .logback (by decide)]
      by_cases h6 : famMatch .gcSum name
      · have k := clean_unique hclean h6
        simp [procLine, hr, updateMetrics, h1, h2, h3, h4, h5, h6, addContrib, lineVal, famCast,
              k .mem (by decide), k .cpu (by decide), k .httpCount (by decide),
              k .httpMax (by decide), k .gcCount (by decide), k .hikActive (by decide),
              k .hikPending (by decide), k .hikTimeout (by decide), k .blocked (by decide),
              k .logback (by decide)]
      by_cases h7 : famMatch .hikActive name
      · have k := clean_unique hclean h7
        simp [procLine, hr, updateMetrics, h1, h2, h3, h4, h5, h6, h7, addContrib, lineVal, famCast,
              k .mem (by decide), k .cpu (by decide), k .httpCount (by decide),
              k .httpMax (by decide), k .gcCount (by decide), k .gcSum (by decide),
              k .hikPending (by decide), k .hikTimeout (by decide), k .blocked (by decide),
              k .logback (by decide)]
      by_cases h8 : famMatch .hikPending name
      · have k := clean_unique hclean h8
        simp [procLine, hr, updateMetrics, h1, h2, h3, h4, h5, h6, h7, h8, addContrib, lineVal, famCast,
              k .mem (by decide), k .cpu (by decide), k .httpCount (by decide),
              k .httpMax (by decide), k .gcCount (by decide), k .gcSum (by decide),
              k .hikActive (by decide), k .hikTimeout (by decide), k .blocked (by decide),
              k .logback (by decide)]
      by_cases h9 : famMatch .hikTimeout name
      · have k := clean_unique hclean h9
        simp [procLine, hr, updateMetrics, h1, h2, h3, h4, h5, h6, h7, h8, h9, addContrib, lineVal, famCast,
              k .mem (by decide), k .cpu (by decide), k .httpCount (by decide),
              k .httpMax (by decide), k .gcCount (by decide), k .gcSum (by decide),
              k .hikActive (by decide), k .hikPending (by decide), k .blocked (by decide),
              k .logback (by decide)]
      by_cases h10 : famMatch .blocked name
      · have k := clean_unique hclean h10
        simp [procLine, hr, updateMetrics, h1, h2, h3, h4, h5, h6, h7, h8, h9, h10, addContrib, lineVal, famCast,
              k .mem (by decide), k .cpu (by decide), k .httpCount (by decide),
              k .httpMax (by decide), k .gcCount (by decide), k .gcSum (by decide),
              k .hikActive (by decide), k .hikPending (by decide), k .hikTimeout (by decide),
              k .logback (by decide)]
      by_cases h11 : famMatch .logback name
      · have k := clean_unique hclean h11
        simp [procLine, hr, updateMetrics, h1, h2, h3, h4, h5, h6, h7, h8, h9, h10, h11, addContrib, lineVal, famCast,
              k .mem (by decide), k .cpu (by decide), k .httpCount (by decide),
              k .httpMax (by decide), k .gcCount (by decide), k .gcSum (by decide),
              k .hikActive (by decide), k .hikPending (by decide), k .hikTimeout (by decide),
              k .blocked (by decide)]
      simp [procLine, hr, updateMetrics, h1, h2, h3, h4, h5, h6, h7, h8, h9, h10, h11,
            addContrib, lineVal, famCast]

theorem foldl_additive (get : Metrics → ℚ) (f : Fam)
    (hstep : ∀ st l, CleanLine l → get (procLine st l).1 = get st.1 + addContrib f l) :
    ∀ (lines : List ExpoLine) (st : Metrics × List (String × RepoEntry)),
      (∀ l ∈ lines, CleanLine l) →
      get (lines.foldl procLine st).1 = get st.1 + (lines.map (addContrib f)).sum := by
  intro lines
  induction lines with
  | nil => intro st _; simp
  | cons a as ih =>
    intro st hc
    have ha := hstep st a (hc a (by simp))
    have h2 := ih (procLine st a) (fun l hl => hc l (by simp [hl]))
    simp only [List.foldl_cons, List.map_cons, List.sum_cons]
    rw [h2, ha]; ring

theorem foldl_lastwins (get : Metrics → ℚ) (f : Fam)
    (hstep : ∀ st l, CleanLine l → get (procLine st l).1 = (lineVal f l).getD (get st.1)) :
    ∀ (lines : List ExpoLine) (st : Metrics × List (String × RepoEntry)),
      (∀ l ∈ lines, CleanLine l) →
      get (lines.foldl procLine st).1 = ((lines.filterMap (lineVal f)).getLast?).getD (get st.1) := by
  intro lines
  induction lines with
  | nil => intro st _; simp
  | cons a as ih =>
    intro st hc
    have ha := hstep st a (hc a (by simp))
    have h2 := ih (procLine st a) (fun l hl => hc l (by simp [hl]))
    rw [List.foldl_cons, h2, ha, List.filterMap_cons]
    cases hv : lineVal f a with
    | none => rfl
    | some q =>
      cases hfm : as.filterMap (lineVal f) with
      | nil => simp
      | cons b bs =>
        rw [List.getLast?_cons_cons]
        rcases hL : (b :: bs).getLast? with _ | x
        · simp at hL
        · rfl

theorem parseMetrics_scalar (lines : List ExpoLine) :
    (parseMetrics lines).jvm_memory_used_bytes = ((lines.foldl procLine (initMetrics, [])).1).jvm_memory_used_bytes ∧
    (parseMetrics lines).system_cpu_usage = ((lines.foldl procLine (initMetrics, [])).1).system_cpu_usage ∧
    (parseMetrics lines).http_server_requests_seconds_count = ((lines.foldl procLine (initMetrics, [])).1).http_server_requests_seconds_count ∧
    (parseMetrics lines).http_server_requests_seconds_max = ((lines.foldl procLine (initMetrics, [])).1).http_server_requests_seconds_max ∧
    (parseMetrics lines).jvm_gc_pause_seconds_count = ((lines.foldl procLine (initMetrics, [])).1).jvm_gc_pause_seconds_count ∧
    (parseMetrics lines).jvm_gc_pause_seconds_sum = ((lines.foldl procLine (initMetrics, [])).1).jvm_gc_pause_seconds_sum ∧
    (parseMetrics lines).hikaricp_connections_active = ((lines.foldl procLine (initMetrics, [])).1).hikaricp_connections_active ∧
    (parseMetrics lines).hikaricp_connections_pending = ((lines.foldl procLine (initMetrics, [])).1).hikaricp_connections_pending ∧
    (parseMetrics lines).hikaricp_connections_timeout_total = ((lines.foldl procLine (initMetrics, [])).1).hikaricp_connections_timeout_total ∧
    (parseMetrics lines).jvm_threads_states_blocked = ((lines.foldl procLine (initMetrics, [])).1).jvm_threads_states_blocked ∧
    (parseMetrics lines).logback_events_error_total = ((lines.foldl procLine (initMetrics, [])).1).logback_events_error_total := by
  simp only [parseMetrics]
  split <;> simp

/-- C1 (amended): for exposition texts whose sample lines each match at most
one metric-family pattern, every additive field of the snapshot equals the sum
of the matching lines' contributions — the exact sample value for the float
fields (JVM memory used bytes, GC pause seconds sum) and the toward-zero
truncation `int(value)` for the count-typed fields (HTTP request count, GC
pause count, DB-pool timeout count, error-log event count) — and every such
sum is unchanged under any permutation of the input lines. -/
theorem C1_additive_fields (lines lines' : List ExpoLine)
    (hclean : ∀ l ∈ lines, CleanLine l) (hperm : List.Perm lines lines') :
    ((parseMetrics lines).jvm_memory_used_bytes = (lines.map (addContrib .mem)).sum ∧
     (parseMetrics lines).http_server_requests_seconds_count = (lines.map (addContrib .httpCount)).sum ∧
     (parseMetrics lines).jvm_gc_pause_seconds_count = (lines.map (addContrib .gcCount)).sum ∧
     (parseMetrics lines).jvm_gc_pause_seconds_sum = (lines.map (addContrib .gcSum)).sum ∧
     (parseMetrics lines).hikaricp_connections_timeout_total = (lines.map (addContrib .hikTimeout)).sum ∧
     (parseMetrics lines).logback_events_error_total = (lines.map (addContrib .logback)).sum) ∧
    ((parseMetrics lines').jvm_memory_used_bytes = (parseMetrics lines).jvm_memory_used_bytes ∧
     (parseMetrics lines').http_server_requests_seconds_count = (parseMetrics lines).http_server_requests_seconds_count ∧
     (parseMetrics lines').jvm_gc_pause_seconds_count = (parseMetrics lines).jvm_gc_pause_seconds_count ∧
     (parseMetrics lines').jvm_gc_pause_seconds_sum = (parseMetrics lines).jvm_gc_pause_seconds_sum ∧
     (parseMetrics lines').hikaricp_connections_timeout_total = (parseMetrics lines).hikaricp_connections_timeout_total ∧
     (parseMetrics lines').logback_events_error_total = (parseMetrics lines).logback_events_error_total) := by
  have hclean' : ∀ l ∈ lines', CleanLine l := fun l hl => hclean l (hperm.mem_iff.mpr hl)
  have base : ∀ (L : List ExpoLine), (∀ l ∈ L, CleanLine l) →
      (parseMetrics L).jvm_memory_used_bytes = (L.map (addContrib .mem)).sum ∧
      (parseMetrics L).http_server_requests_seconds_count = (L.map (addContrib .httpCount)).sum ∧
      (parseMetrics L).jvm_gc_pause_seconds_count = (L.map (addContrib .gcCount)).sum ∧
      (parseMetrics L).jvm_gc_pause_seconds_sum = (L.map (addContrib .gcSum)).sum ∧
      (parseMetrics L).hikaricp_connections_timeout_total = (L.map (addContrib .hikTimeout)).sum ∧
      (parseMetrics L).logback_events_error_total = (L.map (addContrib .logback)).sum := by
    intro L hc
    have p := parseMetrics_scalar L
    refine ⟨?_, ?_, ?_, ?_, ?_, ?_⟩
    · rw [p.1, foldl_additive _ .mem (fun st l h => (procLine_step st l h).1) L _ hc]
      simp [initMetrics]
    · rw [p.2.2.1, foldl_additive _ .httpCount (fun st l h => (procLine_step st l h).2.1) L _ hc]
      simp [initMetrics]
    · rw [p.2.2.2.2.1, foldl_additive _ .gcCount (fun st l h => (procLine_step st l h).2.2.1) L _ hc]
      simp [initMetrics]
    · rw [p.2.2.2.2.2.1, foldl_additive _ .gcSum (fun st l h => (procLine_step st l h).2.2.2.1) L _ hc]
      simp [initMetrics]
    · rw [p.2.2.2.2.2.2.2.2.1, foldl_additive _ .hikTimeout (fun st l h => (procLine_step st l h).2.2.2.2.1) L _ hc]
      simp [initMetrics]
    · rw [p.2.2.2.2.2.2.2.2.2.2, foldl_additive _ .logback (fun st l h => (procLine_step st l h).2.2.2.2.2.1) L _ hc]
      simp [initMetrics]
  have hbase := base lines hclean
  have hbase' := base lines' hclean'
  have hs : ∀ f : Fam, (lines'.map (addContrib f)).sum = (lines.map (addContrib f)).sum :=
    fun f => ((hperm.map (addContrib f)).symm).sum_eq
  refine ⟨hbase, ?_, ?_, ?_, ?_, ?_, ?_⟩
  · rw [hbase'.1, hbase.1, hs .mem]
  · rw [hbase'.2.1, hbase.2.1, hs .httpCount]
  · rw [hbase'.2.2.1, hbase.2.2.1, hs .gcCount]
  · rw [hbase'.2.2.2.1, hbase.2.2.2.1, hs .gcSum]
  · rw [hbase'.2.2.2.2.1, hbase.2.2.2.2.1, hs .hikTimeout]
  · rw [hbase'.2.2.2.2.2, hbase.2.2.2.2.2, hs .logback]

/-- C2 (amended): for exposition texts whose sample lines each match at most
one metric-family pattern, every last-sample-wins field (CPU usage,
blocked-thread gauge, active and pending DB-pool connections) equals the
sample value of the last matching non-repository line in file order. -/
theorem C2_last_sample_wins (lines : List ExpoLine) (hclean : ∀ l ∈ lines, CleanLine l) :
    (∀ q, (lines.filterMap (lineVal .cpu)).getLast? = some q →
      (parseMetrics lines).system_cpu_usage = q) ∧
    (∀ q, (lines.filterMap (lineVal .blocked)).getLast? = some q →
      (parseMetrics lines).jvm_threads_states_blocked = q) ∧
    (∀ q, (lines.filterMap (lineVal .hikActive)).getLast? = some q →
      (parseMetrics lines).hikaricp_connections_active = q) ∧
    (∀ q, (lines.filterMap (lineVal .hikPending)).getLast? = some q →
      (parseMetrics lines).hikaricp_connections_pending = q) := by
  have p := parseMetrics_scalar lines
  refine ⟨?_, ?_, ?_, ?_⟩ <;> intro q hq
  · rw [p.2.1, foldl_lastwins _ .cpu (fun st l h => (procLine_step st l h).2.2.2.2.2.2.1) lines _ hclean, hq]
    rfl
  · rw [p.2.2.2.2.2.2.2.2.2.1, foldl_lastwins _ .blocked (fun st l h => (procLine_step st l h).2.2.2.2.2.2.2.2.2) lines _ hclean, hq]
    rfl
  · rw [p.2.2.2.2.2.2.1, foldl_lastwins _ .hikActive (fun st l h => (procLine_step st l h).2.2.2.2.2.2.2.1) lines _ hclean, hq]
    rfl
  · rw [p.2.2.2.2.2.2.2.1, foldl_lastwins _ .hikPending (fun st l h => (procLine_step st l h).2.2.2.2.2.2.2.2.1) lines _ hclean, hq]
    rfl

theorem pyInt_three_halves : pyInt ((3:ℚ)/2) = 1 := by
  unfold pyInt
  norm_num
  decide

/-- C1 counterexample: the claim's "exact sum of the sample values" fails on
the code. A single line `hikaricp_connections_timeout_total 1.5` produces the
field value 1 (the code adds `int(value)`), while the exact sum of the
matching sample values is 3/2. -/
theorem C1_counterexample :
    (parseMetrics [.sample "hikaricp_connections_timeout_total" (some (3/2))]).hikaricp_connections_timeout_total = 1 ∧
    ([ExpoLine.sample "hikaricp_connections_timeout_total" (some (3/2))].map
      (fun l => (rawVal .hikTimeout l).getD 0)).sum = 3/2 ∧
    (1 : ℚ) ≠ 3/2 := by
  have hrm : repoMatch "hikaricp_connections_timeout_total" = none := by decide
  have h1 : famMatch .mem "hikaricp_connections_timeout_total" = false := by decide
  have h2 : famMatch .cpu "hikaricp_connections_timeout_total" = false := by decide
  have h3 : famMatch .httpCount "hikaricp_connections_timeout_total" = false := by decide
  have h4 : famMatch .httpMax "hikaricp_connections_timeout_total" = false := by decide
  have h5 : famMatch .gcCount "hikaricp_connections_timeout_total" = false := by decide
  have h6 : famMatch .gcSum "hikaricp_connections_timeout_total" = false := by decide
  have h7 : famMatch .hikActive "hikaricp_connections_timeout_total" = false := by decide
  have h8 : famMatch .hikPending "hikaricp_connections_timeout_total" = false := by decide
  have h9 : famMatch .hikTimeout "hikaricp_connections_timeout_total" = true := by decide
  refine ⟨?_, ?_, by norm_num⟩
  · simp [parseMetrics, procLine, hrm, updateMetrics, h1, h2, h3, h4, h5, h6, h7, h8, h9,
          initMetrics, pyInt_three_halves]
  · simp [rawVal, hrm, h9]

/-- C2 counterexample: the line `jvm_memory_used_bytessystem_cpu_usage 5`
matches the CPU-usage family pattern and is the last (only) such line, yet the
snapshot's CPU field is 0: the if/elif chain routes the line to the memory
family first. -/
theorem C2_counterexample :
    rawVal .cpu (.sample "jvm_memory_used_bytessystem_cpu_usage" (some 5)) = some 5 ∧
    (parseMetrics [.sample "jvm_memory_used_bytessystem_cpu_usage" (some 5)]).system_cpu_usage = 0 ∧
    (0 : ℚ) ≠ 5 := by
  have hrm : repoMatch "jvm_memory_used_bytessystem_cpu_usage" = none := by decide
  have h1 : famMatch .mem "jvm_memory_used_bytessystem_cpu_usage" = true := by decide
  have hc : famMatch .cpu "jvm_memory_used_bytessystem_cpu_usage" = true := by decide
  refine ⟨?_, ?_, by norm_num⟩
  · simp [rawVal, hrm, hc]
  · simp [parseMetrics, procLine, hrm, updateMetrics, h1, initMetrics]

/-- C1 witness: the amended theorem applied to a concrete two-line clean text
and its transposition. -/
theorem C1_additive_fields_witness :
    ((parseMetrics [.sample "jvm_memory_used_bytes" (some 10), .sample "jvm_gc_pause_seconds_sum" (some 2)]).jvm_memory_used_bytes =
       ([ExpoLine.sample "jvm_memory_used_bytes" (some 10), .sample "jvm_gc_pause_seconds_sum" (some 2)].map (addContrib .mem)).sum ∧
     (parseMetrics [.sample "jvm_memory_used_bytes" (some 10), .sample "jvm_gc_pause_seconds_sum" (some 2)]).http_server_requests_seconds_count =
       ([ExpoLine.sample "jvm_memory_used_bytes" (some 10), .sample "jvm_gc_pause_seconds_sum" (some 2)].map (addContrib .httpCount)).sum ∧
     (parseMetrics [.sample "jvm_memory_used_bytes" (some 10), .sample "jvm_gc_pause_seconds_sum" (some 2)]).jvm_gc_pause_seconds_count =
       ([ExpoLine.sample "jvm_memory_used_bytes" (some 10), .sample "jvm_gc_pause_seconds_sum" (some 2)].map (addContrib .gcCount)).sum ∧
     (parseMetrics [.sample "jvm_memory_used_bytes" (some 10), .sample "jvm_gc_pause_seconds_sum" (some 2)]).jvm_gc_pause_seconds_sum =
       ([ExpoLine.sample "jvm_memory_used_bytes" (some 10), .sample "jvm_gc_pause_seconds_sum" (some 2)].map (addContrib .gcSum)).sum ∧
     (parseMetrics [.sample "jvm_memory_used_bytes" (some 10), .sample "jvm_gc_pause_seconds_sum" (some 2)]).hikaricp_connections_timeout_total =
       ([ExpoLine.sample "jvm_memory_used_bytes" (some 10), .sample "jvm_gc_pause_seconds_sum" (some 2)].map (addContrib .hikTimeout)).sum ∧
     (parseMetrics [.sample "jvm_memory_used_bytes" (some 10), .sample "jvm_gc_pause_seconds_sum" (some 2)]).logback_events_error_total =
       ([ExpoLine.sample "jvm_memory_used_bytes" (some 10), .sample "jvm_gc_pause_seconds_sum" (some 2)].map (addContrib .logback)).sum) ∧
    ((parseMetrics [.sample "jvm_gc_pause_seconds_sum" (some 2), .sample "jvm_memory_used_bytes" (some 10)]).jvm_memory_used_bytes =
       (parseMetrics [.sample "jvm_memory_used_bytes" (some 10), .sample "jvm_gc_pause_seconds_sum" (some 2)]).jvm_memory_used_bytes ∧
     (parseMetrics [.sample "jvm_gc_pause_seconds_sum" (some 2), .sample "jvm_memory_used_bytes" (some 10)]).http_server_requests_seconds_count =
       (parseMetrics [.sample "jvm_memory_used_bytes" (some 10), .sample "jvm_gc_pause_seconds_sum" (some 2)]).http_server_requests_seconds_count ∧
     (parseMetrics [.sample "jvm_gc_pause_seconds_sum" (some 2), .sample "jvm_memory_used_bytes" (some 10)]).jvm_gc_pause_seconds_count =
       (parseMetrics [.sample "jvm_memory_used_bytes" (some 10), .sample "jvm_gc_pause_seconds_sum" (some 2)]).jvm_gc_pause_seconds_count ∧
     (parseMetrics [.sample "jvm_gc_pause_seconds_sum" (some 2), .sample "jvm_memory_used_bytes" (some 10)]).jvm_gc_pause_seconds_sum =
       (parseMetrics [.sample "jvm_memory_used_bytes" (some 10), .sample "jvm_gc_pause_seconds_sum" (some 2)]).jvm_gc_pause_seconds_sum ∧
     (parseMetrics [.sample "jvm_gc_pause_seconds_sum" (some 2), .sample "jvm_memory_used_bytes" (some 10)]).hikaricp_connections_timeout_total =
       (parseMetrics [.sample "jvm_memory_used_bytes" (some 10), .sample "jvm_gc_pause_seconds_sum" (some 2)]).hikaricp_connections_timeout_total ∧
     (parseMetrics [.sample "jvm_gc_pause_seconds_sum" (some 2), .sample "jvm_memory_used_bytes" (some 10)]).logback_events_error_total =
       (parseMetrics [.sample "jvm_memory_used_bytes" (some 10), .sample "jvm_gc_pause_seconds_sum" (some 2)]).logback_events_error_total) :=
  C1_additive_fields
    [.sample "jvm_memory_used_bytes" (some 10), .sample "jvm_gc_pause_seconds_sum" (some 2)]
    [.sample "jvm_gc_pause_seconds_sum" (some 2), .sample "jvm_memory_used_bytes" (some 10)]
    (by decide) (List.Perm.swap _ _ _)

/-- C2 witness: two CPU samples in file order; the snapshot holds the last. -/
theorem C2_last_sample_wins_witness :
    (parseMetrics [.sample "system_cpu_usage" (some 1), .sample "system_cpu_usage" (some 2)]).system_cpu_usage = 2 :=
  (C2_last_sample_wins [.sample "system_cpu_usage" (some 1), .sample "system_cpu_usage" (some 2)]
    (by decide)).1 2 (by
      have hrm : repoMatch "system_cpu_usage" = none := by decide
      have hc : famMatch .cpu "system_cpu_usage" = true := by decide
      simp [lineVal, hrm, hc, famCast])

theorem byTotalDesc_trans : ∀ a b c : RepoTiming,
    byTotalDesc a b = true → byTotalDesc b c = true → byTotalDesc a c = true := by
  intro a b c
  simp only [byTotalDesc, decide_eq_true_eq]
  exact fun h1 h2 => le_trans h2 h1

theorem byTotalDesc_total : ∀ a b : RepoTiming,
    (byTotalDesc a b || byTotalDesc b a) = true := by
  intro a b
  simp only [byTotalDesc, Bool.or_eq_true, decide_eq_true_eq]
  exact (le_total _ _).symm

theorem updateMetrics_timings (m : Metrics) (name : String) (v : ℚ) :
    (updateMetrics m name v).repository_timings = m.repository_timings := by
  by_cases h1 : famMatch .mem name
  · simp [updateMetrics, h1]
  by_cases h2 : famMatch .cpu name
  · simp [updateMetrics, h1, h2]
  by_cases h3 : famMatch .httpCount name
  · simp [updateMetrics, h1, h2, h3]
  by_cases h4 : famMatch .httpMax name ∧ m.http_server_requests_seconds_max < v
  · simp [updateMetrics, h1, h2, h3, h4]
  by_cases h5 : famMatch .gcCount name
  · simp [updateMetrics, h1, h2, h3, h4, h5]
  by_cases h6 : famMatch .gcSum name
  · simp [updateMetrics, h1, h2, h3, h4, h5, h6]
  by_cases h7 : famMatch .hikActive name
  · simp [updateMetrics, h1, h2, h3, h4, h5, h6, h7]
  by_cases h8 : famMatch .hikPending name
  · simp [updateMetrics, h1, h2, h3, h4, h5, h6, h7, h8]
  by_cases h9 : famMatch .hikTimeout name
  · simp [updateMetrics, h1, h2, h3, h4, h5, h6, h7, h8, h9]
  by_cases h10 : famMatch .blocked name
  · simp [updateMetrics, h1, h2, h3, h4, h5, h6, h7, h8, h9, h10]
  by_cases h11 : famMatch .logback name
  · simp [updateMetrics, h1, h2, h3, h4, h5, h6, h7, h8, h9, h10, h11]
  simp [updateMetrics, h1, h2, h3, h4, h5, h6, h7, h8, h9, h10, h11]

theorem foldl_timings (lines : List ExpoLine) :
    ∀ st : Metrics × List (String × RepoEntry),
      ((lines.foldl procLine st).1).repository_timings = st.1.repository_timings := by
  induction lines with
  | nil => intro st; rfl
  | cons a as ih =>
    intro st
    rw [List.foldl_cons, ih]
    cases a with
    | comment t => rfl
    | blank => rfl
    | sample name value =>
      cases value with
      | none => rfl
      | some v =>
        rcases hr : repoMatch name with _ | kl <;>
          simp [procLine, hr, updateMetrics_timings]

/-- C3 (amended): every RepositoryTiming record satisfies
`avg_time_seconds = total_time_seconds / c` for its accumulated rational count
`c` when `c` is positive and `0` otherwise, with `invocations` the toward-zero
truncation of `c` — so `avg = total / invocations` exactly when `c` is a
positive integer; and `repository_timings` is sorted weakly descending by
`total_time_seconds` by a stable sort: any pair already in weakly descending
order in the first-seen list (ties included) keeps its order in the output. -/
theorem C3_repo_timings (lines : List ExpoLine) :
    (∀ r ∈ (parseMetrics lines).repository_timings, ∃ c : ℚ,
      r.invocations = pyInt c ∧
      r.avg_time_seconds = (if 0 < c then r.total_time_seconds / c else 0) ∧
      (c ≤ 0 → r.avg_time_seconds = 0) ∧
      (0 < c → c.den = 1 → r.avg_time_seconds = r.total_time_seconds / (r.invocations : ℚ))) ∧
    ((parseMetrics lines).repository_timings).Pairwise
      (fun a b => b.total_time_seconds ≤ a.total_time_seconds) ∧
    (∀ a b : RepoTiming, [a, b].Sublist (firstSeenTimings lines) →
      b.total_time_seconds ≤ a.total_time_seconds →
      [a, b].Sublist (parseMetrics lines).repository_timings) := by
  by_cases hemp : ((lines.foldl procLine (initMetrics, [])).2).isEmpty
  · have hnil : (lines.foldl procLine (initMetrics, [])).2 = [] := by
      simpa [List.isEmpty_iff] using hemp
    have htim : (parseMetrics lines).repository_timings = [] := by
      simp only [parseMetrics, hemp, if_pos]
      rw [foldl_timings]
      rfl
    have hfs : firstSeenTimings lines = [] := by
      simp [firstSeenTimings, hnil]
    refine ⟨?_, ?_, ?_⟩
    · intro r hr; rw [htim] at hr; cases hr
    · rw [htim]; exact List.Pairwise.nil
    · intro a b hab _
      rw [hfs] at hab
      cases List.sublist_nil.mp hab
  · have htim : (parseMetrics lines).repository_timings =
        (firstSeenTimings lines).mergeSort byTotalDesc := by
      simp [parseMetrics, hemp, firstSeenTimings]
    refine ⟨?_, ?_, ?_⟩
    · intro r hr
      rw [htim] at hr
      rw [List.mem_mergeSort] at hr
      rcases List.mem_map.mp hr with ⟨p, _, hp⟩
      refine ⟨p.2.count, ?_, ?_, ?_, ?_⟩
      · rw [← hp]; rfl
      · rw [← hp]; rfl
      · intro hc
        rw [← hp]
        simp [mkTiming, not_lt.mpr hc]
      · intro hpos hden
        have hinv : r.invocations = p.2.count.num := by
          rw [← hp]
          simp [mkTiming, pyInt, hden, Int.tdiv_one]
        have hcast : ((r.invocations : Int) : ℚ) = p.2.count := by
          rw [hinv]
          exact (Rat.den_eq_one_iff _).mp hden
        rw [hcast, ← hp]
        simp [mkTiming, hpos]
    · rw [htim]
      have := List.sorted_mergeSort byTotalDesc_trans byTotalDesc_total
        (firstSeenTimings lines)
      exact this.imp (by simp [byTotalDesc])
    · intro a b hab hle
      rw [htim]
      exact List.pair_sublist_mergeSort byTotalDesc_trans byTotalDesc_total
        (by simp [byTotalDesc, hle]) hab

theorem pyInt_half : pyInt ((1:ℚ)/2) = 0 := by
  unfold pyInt
  norm_num
  decide

/-- C3 counterexample: a `sum` line of 1.0 and a `count` line of 0.5 yield a
record with `invocations = 0` but `avg_time_seconds = 2 ≠ 0`, refuting the
claim's "avg equals 0 when invocations is 0": the code divides by the rational
accumulated count, not by `invocations`. -/
theorem C3_counterexample :
    (parseMetrics
      [.sample "spring_data_repository_invocations_seconds_sum\x7brepository=\"R\",method=\"m\"\x7d" (some 1),
       .sample "spring_data_repository_invocations_seconds_count\x7brepository=\"R\",method=\"m\"\x7d" (some (1/2))]).repository_timings =
      [{ repository := "R", method := "m", total_time_seconds := 1, invocations := 0,
         avg_time_seconds := 2, max_time_seconds := 0 }] ∧
    (2 : ℚ) ≠ 0 := by
  have hm1 : repoMatch "spring_data_repository_invocations_seconds_sum\x7brepository=\"R\",method=\"m\"\x7d" =
      some ("sum", "repository=\"R\",method=\"m\"") := by decide
  have hm2 : repoMatch "spring_data_repository_invocations_seconds_count\x7brepository=\"R\",method=\"m\"\x7d" =
      some ("count", "repository=\"R\",method=\"m\"") := by decide
  have hrm : repoMethodOf "repository=\"R\",method=\"m\"" = ("R", "m") := by decide
  refine ⟨?_, by norm_num⟩
  norm_num +decide [parseMetrics, procLine, hm1, hm2, repoUpdate, hrm, accApply, entryApply,
            mkTiming, pyInt_half, List.mergeSort]

/-- C3 witness: the characterisation applied to the record produced by a
concrete sum-4 / count-2 pair of repository lines. -/
theorem C3_repo_timings_witness :
    ∃ c : ℚ,
      c3rec.invocations = pyInt c ∧
      c3rec.avg_time_seconds = (if 0 < c then c3rec.total_time_seconds / c else 0) ∧
      (c ≤ 0 → c3rec.avg_time_seconds = 0) ∧
      (0 < c → c.den = 1 →
        c3rec.avg_time_seconds = c3rec.total_time_seconds / (c3rec.invocations : ℚ)) :=
  (C3_repo_timings
    [.sample "spring_data_repository_invocations_seconds_sum\x7brepository=\"R\",method=\"m\"\x7d" (some 4),
     .sample "spring_data_repository_invocations_seconds_count\x7brepository=\"R\",method=\"m\"\x7d" (some 2)]).1
    c3rec (by
      have hm1 : repoMatch "spring_data_repository_invocations_seconds_sum\x7brepository=\"R\",method=\"m\"\x7d" =
          some ("sum", "repository=\"R\",method=\"m\"") := by decide
      have hm2 : repoMatch "spring_data_repository_invocations_seconds_count\x7brepository=\"R\",method=\"m\"\x7d" =
          some ("count", "repository=\"R\",method=\"m\"") := by decide
      have hrm : repoMethodOf "repository=\"R\",method=\"m\"" = ("R", "m") := by decide
      have hpy : pyInt ((0:ℚ) + 2) = 2 := by
        norm_num [pyInt]
      norm_num +decide [parseMetrics, procLine, hm1, hm2, repoUpdate, hrm, accApply, entryApply,
                mkTiming, hpy, c3rec, List.mergeSort])

theorem foldl_drop_malformed (lines : List ExpoLine) :
    ∀ st : Metrics × List (String × RepoEntry),
      (lines.filter (fun l => !isMalformed l)).foldl procLine st = lines.foldl procLine st := by
  induction lines with
  | nil => intro st; rfl
  | cons a as ih =>
    intro st
    cases a with
    | comment t => exact ih (procLine st (ExpoLine.comment t))
    | blank => exact ih (procLine st ExpoLine.blank)
    | sample n v =>
      cases v with
      | none => exact ih st
      | some q => exact ih (procLine st (ExpoLine.sample n (some q)))

/-- C4: the parser is total, and a malformed line (one whose last token fails
numeric conversion; tokenisation of a non-blank line cannot fail) is silently
skipped: the snapshot of any line list equals the snapshot of the same list
with every malformed line removed, so a malformed line does not corrupt any
valid line's contribution. -/
theorem C4_malformed_skipped (lines : List ExpoLine) :
    parseMetrics lines = parseMetrics (lines.filter (fun l => !isMalformed l)) := by
  simp only [parseMetrics, foldl_drop_malformed]

/-- C5: on the spec-modelled rule engine, every snapshot whose cumulative GC
pause time exceeds 1.0 second while pending DB-pool connections are 0, the
repository-timing table is empty and the blocked-thread gauge is 0 produces
exactly one finding: the memory-pressure finding. -/
theorem C5_memory_pressure_only (s : Metrics)
    (hgc : 1 < s.jvm_gc_pause_seconds_sum)
    (hpend : s.hikaricp_connections_pending = 0)
    (hrepo : s.repository_timings = [])
    (hblk : s.jvm_threads_states_blocked = 0) :
    evaluate s = [{ rule := "memory_pressure", text := memoryPressureText }] := by
  norm_num [evaluate, hgc, hpend, hrepo, hblk]

/-- C5 witness: the rule engine evaluated at the spec's example snapshot
(GC pause sum 1.5, everything else zero). -/
theorem C5_memory_pressure_only_witness :
    evaluate { initMetrics with jvm_gc_pause_seconds_sum := 3/2 } =
      [{ rule := "memory_pressure", text := memoryPressureText }] :=
  C5_memory_pressure_only _ (by norm_num [initMetrics]) rfl rfl rfl

theorem firstListVal_skip (fields : List (String × Json)) (k : String) (ks : List String)
    (h : ∀ v, jlookup fields k = some v → v.isList = false) :
    firstListVal fields (k :: ks) = firstListVal fields ks := by
  rcases hc : jlookup fields k with _ | v
  · simp [firstListVal, hc]
  · simp [firstListVal, hc, h v hc]

theorem firstListVal_take (fields : List (String × Json)) (k : String) (ks : List String)
    (v : Json) (h1 : jlookup fields k = some v) (h2 : v.isList = true) :
    firstListVal fields (k :: ks) = some v := by
  simp [firstListVal, h1, h2]

/-- C6 (amended): normalisation returns the records of a bare JSON list; the
value stored under the key `traces` verbatim whenever that key is present
(which is the list of records whenever it is a list — the code does not
check); otherwise the first list stored under `content`, `items` or `values`
in that priority order (a list under an earlier key is always returned, a
later key is consulted only when every earlier key is absent or holds a
non-list); and the empty sequence for every other JSON shape — never
fabricating records. -/
theorem C6_trace_normalization (data : Json) :
    (∀ items, data = .arr items → normalize_payload data = .arr items) ∧
    (∀ fields t, data = .obj fields → jlookup fields "traces" = some t → normalize_payload data = t) ∧
    (∀ fields, data = .obj fields → jlookup fields "traces" = none →
      (∀ v, jlookup fields "content" = some v → v.isList = true → normalize_payload data = v) ∧
      ((∀ v, jlookup fields "content" = some v → v.isList = false) →
        ∀ v, jlookup fields "items" = some v → v.isList = true → normalize_payload data = v) ∧
      ((∀ v, jlookup fields "content" = some v → v.isList = false) →
       (∀ v, jlookup fields "items" = some v → v.isList = false) →
        ∀ v, jlookup fields "values" = some v → v.isList = true → normalize_payload data = v) ∧
      ((∀ v, jlookup fields "content" = some v → v.isList = false) →
       (∀ v, jlookup fields "items" = some v → v.isList = false) →
       (∀ v, jlookup fields "values" = some v → v.isList = false) →
        normalize_payload data = .arr [])) ∧
    ((∀ items, data ≠ .arr items) → (∀ fields, data ≠ .obj fields) →
      normalize_payload data = .arr []) := by
  refine ⟨?_, ?_, ?_, ?_⟩
  · rintro items rfl; rfl
  · rintro fields t rfl h; simp [normalize_payload, h]
  · rintro fields rfl htr
    refine ⟨?_, ?_, ?_, ?_⟩
    · intro v hv hl
      simp [normalize_payload, htr, firstListVal_take fields "content" _ v hv hl]
    · intro hna v hv hl
      simp [normalize_payload, htr, firstListVal_skip fields "content" _ hna,
            firstListVal_take fields "items" _ v hv hl]
    · intro hna hnb v hv hl
      simp [normalize_payload, htr, firstListVal_skip fields "content" _ hna,
            firstListVal_skip fields "items" _ hnb,
            firstListVal_take fields "values" _ v hv hl]
    · intro hna hnb hnc
      simp only [normalize_payload, htr]
      rw [firstListVal_skip fields "content" ["items", "values"] hna,
          firstListVal_skip fields "items" ["values"] hnb,
          firstListVal_skip fields "values" [] hnc]
      rfl
  · intro ha hb
    cases data with
    | arr items => exact absurd rfl (ha items)
    | obj fields => exact absurd rfl (hb fields)
    | null => rfl
    | bool b => rfl
    | num q => rfl
    | str s => rfl

/-- C6 counterexample: for the payload shape `(traces: 5)` — not one of the
claim's three list shapes — the code returns the number 5 verbatim instead of
the empty sequence the claim prescribes for "every other JSON shape". -/
theorem C6_counterexample :
    normalize_payload (.obj [("traces", .num 5)]) = .num 5 ∧
    Json.num 5 ≠ Json.arr [] := by
  refine ⟨rfl, ?_⟩
  intro h
  exact Json.noConfusion h

/-- C6 witness: the traces-key case applied to a concrete wrapped list. -/
theorem C6_trace_normalization_witness :
    normalize_payload (.obj [("traces", .arr [.str "t"])]) = .arr [.str "t"] :=
  (C6_trace_normalization (.obj [("traces", .arr [.str "t"])])).2.1 _ _ rfl rfl

/-- C8: when every candidate trace endpoint answers 404, `get_httptrace_data`
returns `None` — the very same value it returns on a connection failure —
because the Python endpoint loop has no `return` after it; the empty-list
absence signal promised by the claim (and by the function's own docstring,
collector.py lines 14-15) is never produced. -/
theorem C8_absence_collapses_to_unavailable :
    get_httptrace_data (fun _ => .resp 404 (some (.arr []))) = none ∧
    get_httptrace_data (fun _ => .exc) = none :=
  ⟨rfl, rfl⟩

theorem snapshotLookup_isSome (m : Metrics) (k : String) :
    (snapshotLookup m k).isSome = true ↔ k ∈ snapshot_keys := by
  by_cases h1 : k = "jvm_memory_used_bytes"
  · subst h1; simp +decide [snapshotLookup, snapshot_keys]
  by_cases h2 : k = "system_cpu_usage"
  · subst h2; simp +decide [snapshotLookup, snapshot_keys]
  by_cases h3 : k = "http_server_requests_seconds_count"
  · subst h3; simp +decide [snapshotLookup, snapshot_keys]
  by_cases h4 : k = "http_server_requests_seconds_max"
  · subst h4; simp +decide [snapshotLookup, snapshot_keys]
  by_cases h5 : k = "jvm_gc_pause_seconds_count"
  · subst h5; simp +decide [snapshotLookup, snapshot_keys]
  by_cases h6 : k = "jvm_gc_pause_seconds_sum"
  · subst h6; simp +decide [snapshotLookup, snapshot_keys]
  by_cases h7 : k = "hikaricp_connections_active"
  · subst h7; simp +decide [snapshotLookup, snapshot_keys]
  by_cases h8 : k = "hikaricp_connections_pending"
  · subst h8; simp +decide [snapshotLookup, snapshot_keys]
  by_cases h9 : k = "hikaricp_connections_timeout_total"
  · subst h9; simp +decide [snapshotLookup, snapshot_keys]
  by_cases h10 : k = "jvm_threads_states_blocked"
  · subst h10; simp +decide [snapshotLookup, snapshot_keys]
  by_cases h11 : k = "logback_events_error_total"
  · subst h11; simp +decide [snapshotLookup, snapshot_keys]
  by_cases h12 : k = "repository_timings"
  · subst h12; simp +decide [snapshotLookup, snapshot_keys]
  simp [snapshotLookup, snapshot_keys, h1, h2, h3, h4, h5, h6, h7, h8, h9, h10, h11, h12]

/-- C10: for every input line list, the snapshot answers lookups for exactly
the twelve fixed keys of the dict literal: `snapshotLookup` on the parse
result is defined iff the key is one of `snapshot_keys`, so every downstream
field lookup on a successful snapshot is defined and no other key exists. -/
theorem C10_snapshot_keys (lines : List ExpoLine) (k : String) :
    (snapshotLookup (parseMetrics lines) k).isSome = true ↔ k ∈ snapshot_keys :=
  snapshotLookup_isSome (parseMetrics lines) k

theorem has_key_for_empty (env : Env) : has_key_for env "" = false := rfl

/-- C7: for every environment, provider table and metrics snapshot — whenever
no provider is selected (or the falsy empty-string provider is), the selected
provider has no credential, the provider name is unknown to the table, or the
provider call raises — both `analyze_metrics` and `analyze_metrics_structured`
return the locally rendered manual prompt without failing, and the failure
reason appears only in the structured result's `error` field, only in the
raising case. -/
theorem C7_manual_prompt_fallback (providers : String → Option ProviderFn) (env : Env) (m : Metrics) :
    ((select_provider env = none ∨ select_provider env = some "") →
      analyze_metrics_with providers env m = generate_prompt_for_manual_analysis m ∧
      analyze_metrics_structured_with providers env m =
        { mode := "manual_prompt", provider := none,
          content := generate_prompt_for_manual_analysis m, error := none }) ∧
    (∀ p, select_provider env = some p → has_key_for env p = false →
      analyze_metrics_with providers env m = generate_prompt_for_manual_analysis m ∧
      analyze_metrics_structured_with providers env m =
        { mode := "manual_prompt", provider := none,
          content := generate_prompt_for_manual_analysis m, error := none }) ∧
    (∀ p, select_provider env = some p → providers p = none →
      analyze_metrics_with providers env m = generate_prompt_for_manual_analysis m ∧
      analyze_metrics_structured_with providers env m =
        { mode := "manual_prompt", provider := none,
          content := generate_prompt_for_manual_analysis m, error := none }) ∧
    (∀ p fn e, select_provider env = some p → has_key_for env p = true →
      providers p = some fn → fn m = .error e →
      analyze_metrics_with providers env m = generate_prompt_for_manual_analysis m ∧
      analyze_metrics_structured_with providers env m =
        { mode := "manual_prompt", provider := none,
          content := generate_prompt_for_manual_analysis m, error := some e }) := by
  refine ⟨?_, ?_, ?_, ?_⟩
  · rintro (h | h) <;>
      simp [analyze_metrics_with, analyze_metrics_structured_with, h]
  · intro p hs hk
    simp [analyze_metrics_with, analyze_metrics_structured_with, hs, hk]
  · intro p hs hp
    by_cases hk : has_key_for env p = false
    · simp [analyze_metrics_with, analyze_metrics_structured_with, hs, hk]
    · have hk' : has_key_for env p = true := by
        cases hb : has_key_for env p
        · exact absurd hb hk
        · rfl
      have hpe : ¬(p = "") := by
        intro h
        subst h
        rw [has_key_for_empty] at hk'
        cases hk'
      simp [analyze_metrics_with, analyze_metrics_structured_with, hs, hk', hpe, hp]
  · intro p fn e hs hk hp hf
    have hpe : ¬(p = "") := by
      intro h
      subst h
      rw [has_key_for_empty] at hk
      cases hk
    simp [analyze_metrics_with, analyze_metrics_structured_with, hs, hk, hpe, hp, hf]

/-- C7 witness: an explicitly selected `mock` provider whose call raises
`boom`; both entry points fall back to the manual prompt and the reason lands
in the structured `error` field only. -/
theorem C7_manual_prompt_fallback_witness :
    analyze_metrics_with (fun _ => some (fun _ => .error "boom")) [("AI_PROVIDER", "mock")] initMetrics =
      generate_prompt_for_manual_analysis initMetrics ∧
    analyze_metrics_structured_with (fun _ => some (fun _ => .error "boom")) [("AI_PROVIDER", "mock")] initMetrics =
      { mode := "manual_prompt", provider := none,
        content := generate_prompt_for_manual_analysis initMetrics, error := some "boom" } :=
  (C7_manual_prompt_fallback (fun _ => some (fun _ => .error "boom")) [("AI_PROVIDER", "mock")] initMetrics).2.2.2
    "mock" (fun _ => .error "boom") "boom" (by decide) (by decide) rfl rfl

/-- C9: two repository-timing lines of kinds `sum` and `count` whose label
blocks parse to the same repository and method (identical label sets in
particular) produce the identical snapshot in either order: accumulation into
the per-(repository, method) record is commutative. -/
theorem C9_repo_accumulation_commutes
    (n1 n2 A B : String) (v1 v2 : ℚ)
    (h1 : repoMatch n1 = some ("sum", A)) (h2 : repoMatch n2 = some ("count", B))
    (hlab : repoMethodOf A = repoMethodOf B) :
    parseMetrics [.sample n1 (some v1), .sample n2 (some v2)] =
      parseMetrics [.sample n2 (some v2), .sample n1 (some v1)] := by
  have hfold :
      List.foldl procLine (initMetrics, []) [.sample n1 (some v1), .sample n2 (some v2)] =
      List.foldl procLine (initMetrics, []) [.sample n2 (some v2), .sample n1 (some v1)] := by
    simp only [List.foldl_cons, List.foldl_nil, procLine, h1, h2]
    simp only [repoUpdate, hlab]
    simp +decide [accApply, entryApply]
  unfold parseMetrics
  rw [hfold]

/-- C9 witness: the same label set written in two different orders, sum line
and count line exchanged. -/
theorem C9_repo_accumulation_commutes_witness :
    parseMetrics
      [.sample "spring_data_repository_invocations_seconds_sum\x7brepository=\"R\",method=\"findAll\"\x7d" (some 1),
       .sample "spring_data_repository_invocations_seconds_count\x7bmethod=\"findAll\",repository=\"R\"\x7d" (some 2)] =
    parseMetrics
      [.sample "spring_data_repository_invocations_seconds_count\x7bmethod=\"findAll\",repository=\"R\"\x7d" (some 2),
       .sample "spring_data_repository_invocations_seconds_sum\x7brepository=\"R\",method=\"findAll\"\x7d" (some 1)] :=
  C9_repo_accumulation_commutes
    "spring_data_repository_invocations_seconds_sum\x7brepository=\"R\",method=\"findAll\"\x7d"
    "spring_data_repository_invocations_seconds_count\x7bmethod=\"findAll\",repository=\"R\"\x7d"
    "repository=\"R\",method=\"findAll\"" "method=\"findAll\",repository=\"R\"" 1 2
    (by decide) (by decide) (by decide)

/-- C10 witness: the CPU-usage key is answered on the empty text's snapshot. -/
theorem C10_snapshot_keys_witness :
    (snapshotLookup (parseMetrics []) "system_cpu_usage").isSome = true :=
  (C10_snapshot_keys [] "system_cpu_usage").mpr (by decide)

end QS
